import Mathlib

/-!
Shallow embedding of `src/cdk/lib/lambda/ses_verification_handler.py`.

The handler is a CloudFormation custom-resource Lambda managing SES domain
verification.  Its external collaborators (the SES client and the Route53
client) are modelled as an `Env` of oracle functions returning `Except`
values: an `Except.error` models the client call raising an exception, an
`Except.ok` models its successful response.  Each operation returns, next
to its result, the ordered list of external service calls it issued, so
that side-effect claims (which calls happen, in what order, with which
arguments) can be stated.
-/

namespace SesVerification

/-- One element of a `ResourceRecords` list: `{'Value': ...}`. -/
structure ResourceRecord where
  value : String
deriving DecidableEq, Repr

/-- A Route53 resource record set, as listed or submitted in a change.
The `Type` key is rendered as `rtype` (`Type` is reserved in Lean). -/
structure RecordSet where
  name : String
  rtype : String
  ttl : Nat
  resourceRecords : List ResourceRecord
deriving DecidableEq, Repr

/-- One element of a change batch: `{'Action': ..., 'ResourceRecordSet': ...}`. -/
structure Change where
  action : String
  resourceRecordSet : RecordSet
deriving DecidableEq, Repr

/-- A Route53 change batch: `{'Changes': [...]}`. -/
structure ChangeBatch where
  changes : List Change
deriving DecidableEq, Repr

/-- The `Data` part of a successful Create/Update response. -/
structure RData where
  verificationToken : String
  recordName : String
  changeId : String
deriving DecidableEq, Repr

/-- The dictionary returned to CloudFormation:
`PhysicalResourceId` plus an optional `Data` block. -/
structure Result where
  physicalResourceId : String
  data : Option RData
deriving DecidableEq, Repr

/-- An external service call issued by the handler, with its arguments. -/
inductive Call where
  | verifyDomain (region domain : String)
  | changeRecords (hostedZoneId : String) (changeBatch : ChangeBatch)
  | listRecords (hostedZoneId startRecordName startRecordType : String)
deriving DecidableEq, Repr

/-- The environment of external collaborators.
`verifyDomainIdentity region domain` models
`boto3.client('ses', region_name=region).verify_domain_identity(Domain=domain)`
returning the `VerificationToken` field of its response;
`changeRRS zone batch` models
`route53.change_resource_record_sets(HostedZoneId=zone, ChangeBatch=batch)`
returning the `ChangeInfo.Id` field of its response;
`listRRS zone startName startType` models
`route53.list_resource_record_sets(...)` returning the
`ResourceRecordSets` field of its response.
An `Except.error` models the call raising. -/
structure Env where
  verifyDomainIdentity : String → String → Except String String
  changeRRS : String → ChangeBatch → Except String String
  listRRS : String → String → String → Except String (List RecordSet)

/-- The UPSERT change batch built at lines 47-57 of the source:
one UPSERT of a TXT record named `_amazonses.<domain>`, TTL 300, single
value the token wrapped in literal double quotes. -/
def upsertBatch (domainName verificationToken : String) : ChangeBatch :=
  { changes := [{ action := "UPSERT",
                  resourceRecordSet :=
                    { name := "_amazonses." ++ domainName,
                      rtype := "TXT",
                      ttl := 300,
                      resourceRecords := [{ value := "\"" ++ verificationToken ++ "\"" }] } }] }

/-- The DELETE change batch built at lines 97-102 of the source: one
DELETE of the record set exactly as returned by the listing. -/
def deleteBatch (recordSet : RecordSet) : ChangeBatch :=
  { changes := [{ action := "DELETE", resourceRecordSet := recordSet }] }

/-- `create_or_update_verification` (source lines 32-78).  Obtains a
verification token from SES, UPSERTs the TXT record, and returns the
physical id together with token, record name and change id.  Any failure
of either call propagates (`Except.error`).  The second component is the
trace of external calls issued. -/
def create_or_update_verification (env : Env) (domain_name hosted_zone_id region : String) :
    Except String Result × List Call :=
  match env.verifyDomainIdentity region domain_name with
  | Except.error e => (Except.error e, [Call.verifyDomain region domain_name])
  | Except.ok verification_token =>
    let record_name := "_amazonses." ++ domain_name
    let change_batch := upsertBatch domain_name verification_token
    match env.changeRRS hosted_zone_id change_batch with
    | Except.error e =>
        (Except.error e,
         [Call.verifyDomain region domain_name,
          Call.changeRecords hosted_zone_id change_batch])
    | Except.ok change_id =>
        (Except.ok
          { physicalResourceId := "ses-verification-" ++ domain_name,
            data := some
              { verificationToken := verification_token,
                recordName := record_name,
                changeId := change_id } },
         [Call.verifyDomain region domain_name,
          Call.changeRecords hosted_zone_id change_batch])

/-- Python's `s.rstrip('.')`: remove every trailing `'.'` character. -/
def rstripDots (s : String) : String :=
  String.mk ((s.data.reverse.dropWhile (fun c => c == '.')).reverse)

/-- The scan loop of `delete_verification` (source lines 95-110): return
the first record set whose name, with trailing dots stripped
(`rstrip('.')`), equals `record_name` and whose type is `TXT`. -/
def findVerificationRecord (record_name : String) : List RecordSet → Option RecordSet
  | [] => none
  | record_set :: rest =>
    if rstripDots record_set.name == record_name && record_set.rtype == "TXT"
    then some record_set
    else findVerificationRecord record_name rest

/-- `delete_verification` (source lines 80-121).  Lists record sets
starting at `_amazonses.<domain>` / TXT, deletes the first matching one
(submitting the record set exactly as returned), and always returns just
the physical id: every exception from listing or deleting is caught and
the same result returned (source lines 116-121). -/
def delete_verification (env : Env) (domain_name hosted_zone_id region : String) :
    Result × List Call :=
  let record_name := "_amazonses." ++ domain_name
  let res : Result := { physicalResourceId := "ses-verification-" ++ domain_name, data := none }
  match env.listRRS hosted_zone_id record_name "TXT" with
  | Except.error _ => (res, [Call.listRecords hosted_zone_id record_name "TXT"])
  | Except.ok record_sets =>
    match findVerificationRecord record_name record_sets with
    | none => (res, [Call.listRecords hosted_zone_id record_name "TXT"])
    | some record_set =>
        (res,
         [Call.listRecords hosted_zone_id record_name "TXT",
          Call.changeRecords hosted_zone_id (deleteBatch record_set)])

/-- The `ResourceProperties` dictionary of the event.  `none` models a
missing key (a Python `KeyError` on access). -/
structure Props where
  domainName : Option String
  hostedZoneId : Option String
  region : Option String
deriving DecidableEq, Repr

/-- The CloudFormation event.  `none` models a missing key. -/
structure Event where
  requestType : Option String
  resourceProperties : Option Props
deriving DecidableEq, Repr

/-- `handler` (source lines 8-30).  Reads the required fields in source
order (a missing key raises before any service call), then dispatches on
the request type: Create and Update both go to
`create_or_update_verification`, Delete to `delete_verification`, and any
other value raises `Unknown request type`.  The outer `except` re-raises,
so errors propagate. -/
def handler (env : Env) (event : Event) : Except String Result × List Call :=
  match event.requestType with
  | none => (Except.error "KeyError: RequestType", [])
  | some request_type =>
    match event.resourceProperties with
    | none => (Except.error "KeyError: ResourceProperties", [])
    | some props =>
      match props.domainName with
      | none => (Except.error "KeyError: DomainName", [])
      | some domain_name =>
        match props.hostedZoneId with
        | none => (Except.error "KeyError: HostedZoneId", [])
        | some hosted_zone_id =>
          match props.region with
          | none => (Except.error "KeyError: Region", [])
          | some region =>
            if request_type = "Create" ∨ request_type = "Update" then
              create_or_update_verification env domain_name hosted_zone_id region
            else if request_type = "Delete" then
              let out := delete_verification env domain_name hosted_zone_id region
              (Except.ok out.1, out.2)
            else
              (Except.error ("Unknown request type: " ++ request_type), [])

/-- An event with all required fields present. -/
def mkEvent (request_type domain_name hosted_zone_id region : String) : Event :=
  { requestType := some request_type,
    resourceProperties := some
      { domainName := some domain_name,
        hostedZoneId := some hosted_zone_id,
        region := some region } }

/-! ### Concrete fixtures

Concrete record sets and environments used to witness the theorems on
explicit inputs. -/

/-- A record set as Route53 would return it for `example.com` (trailing
root dot, its own TTL and value, not the ones Create would write). -/
def matchingRecordSet : RecordSet :=
  { name := "_amazonses.example.com.",
    rtype := "TXT",
    ttl := 600,
    resourceRecords := [{ value := "\"oldtoken\"" }] }

/-- A TXT record set under a different name. -/
def otherNameRecordSet : RecordSet :=
  { name := "_dmarc.example.com.",
    rtype := "TXT",
    ttl := 300,
    resourceRecords := [{ value := "\"v=DMARC1\"" }] }

/-- A record set with the verification name but a different type. -/
def otherTypeRecordSet : RecordSet :=
  { name := "_amazonses.example.com.",
    rtype := "CNAME",
    ttl := 300,
    resourceRecords := [{ value := "target.example.net." }] }

/-- An environment in which every collaborator call succeeds; the listing
returns two non-matching record sets before the matching one. -/
def okEnv : Env :=
  { verifyDomainIdentity := fun _ _ => Except.ok "tok123",
    changeRRS := fun _ _ => Except.ok "C42",
    listRRS := fun _ _ _ =>
      Except.ok [otherNameRecordSet, otherTypeRecordSet, matchingRecordSet] }

/-- An environment whose verification call raises. -/
def failVerifyEnv : Env :=
  { verifyDomainIdentity := fun _ _ => Except.error "verify boom",
    changeRRS := fun _ _ => Except.ok "C42",
    listRRS := fun _ _ _ => Except.ok [] }

/-- An environment whose DNS change call raises. -/
def failChangeEnv : Env :=
  { verifyDomainIdentity := fun _ _ => Except.ok "tok123",
    changeRRS := fun _ _ => Except.error "change boom",
    listRRS := fun _ _ _ => Except.ok [] }

/-- An environment whose listing succeeds but contains no matching record. -/
def noMatchEnv : Env :=
  { verifyDomainIdentity := fun _ _ => Except.ok "tok123",
    changeRRS := fun _ _ => Except.ok "C42",
    listRRS := fun _ _ _ => Except.ok [otherNameRecordSet, otherTypeRecordSet] }

/-- The result a successful Create/Update against `okEnv` produces. -/
def okCreateResult : Result :=
  { physicalResourceId := "ses-verification-example.com",
    data := some
      { verificationToken := "tok123",
        recordName := "_amazonses.example.com",
        changeId := "C42" } }

/-! ### Helper lemmas -/

/-- A successful `create_or_update_verification` always carries the
canonical physical id. -/
theorem create_or_update_ok_id (env : Env) (d z r : String) (res : Result)
    (h : (create_or_update_verification env d z r).1 = Except.ok res) :
    res.physicalResourceId = "ses-verification-" ++ d := by
  unfold create_or_update_verification at h
  split at h
  · exact absurd h (by simp)
  · dsimp only at h
    split at h
    · exact absurd h (by simp)
    · simp only [Except.ok.injEq] at h
      rw [← h]

/-- The record set the scan returns comes from the listing and satisfies
the name/type condition of source line 96. -/
theorem findVerificationRecord_some (record_name : String) (l : List RecordSet)
    (rs : RecordSet) (h : findVerificationRecord record_name l = some rs) :
    rs ∈ l ∧ rstripDots rs.name = record_name ∧ rs.rtype = "TXT" := by
  induction l with
  | nil => simp [findVerificationRecord] at h
  | cons a t ih =>
    rw [findVerificationRecord] at h
    by_cases hc : (rstripDots a.name == record_name && a.rtype == "TXT") = true
    · rw [if_pos hc] at h
      simp only [Bool.and_eq_true, beq_iff_eq] at hc
      injection h with h
      subst h
      exact ⟨List.mem_cons_self a t, hc.1, hc.2⟩
    · rw [if_neg hc] at h
      rcases ih h with ⟨hm, h1, h2⟩
      exact ⟨List.mem_cons_of_mem a hm, h1, h2⟩

/-- Evaluation of `delete_verification` when the listing raises. -/
theorem delete_verification_error (env : Env) (d z r e : String)
    (hE : env.listRRS z ("_amazonses." ++ d) "TXT" = Except.error e) :
    delete_verification env d z r =
      ({ physicalResourceId := "ses-verification-" ++ d, data := none },
       [Call.listRecords z ("_amazonses." ++ d) "TXT"]) := by
  simp only [delete_verification, hE]

/-- Evaluation of `delete_verification` when the listing succeeds but no
record set matches. -/
theorem delete_verification_ok_none (env : Env) (d z r : String)
    (record_sets : List RecordSet)
    (hE : env.listRRS z ("_amazonses." ++ d) "TXT" = Except.ok record_sets)
    (hF : findVerificationRecord ("_amazonses." ++ d) record_sets = none) :
    delete_verification env d z r =
      ({ physicalResourceId := "ses-verification-" ++ d, data := none },
       [Call.listRecords z ("_amazonses." ++ d) "TXT"]) := by
  simp only [delete_verification, hE, hF]

/-- Evaluation of `delete_verification` when the listing succeeds and the
scan finds a matching record set. -/
theorem delete_verification_ok_some (env : Env) (d z r : String)
    (record_sets : List RecordSet) (rs : RecordSet)
    (hE : env.listRRS z ("_amazonses." ++ d) "TXT" = Except.ok record_sets)
    (hF : findVerificationRecord ("_amazonses." ++ d) record_sets = some rs) :
    delete_verification env d z r =
      ({ physicalResourceId := "ses-verification-" ++ d, data := none },
       [Call.listRecords z ("_amazonses." ++ d) "TXT",
        Call.changeRecords z (deleteBatch rs)]) := by
  simp only [delete_verification, hE, hF]

/-- `true` exactly on DNS change-submission calls. -/
def isChangeCall : Call → Bool
  | Call.changeRecords _ _ => true
  | _ => false

/-! ### Claims -/

/-- Claim C1: for every domain `d`, zone id and region, and for every
outcome (success or failure) of the listing call and of the delete call —
both determined by `env` — `delete_verification` does not raise: it
returns exactly the physical id `ses-verification-<d>` and no `Data`. -/
theorem delete_never_raises (env : Env) (d z r : String) :
    (delete_verification env d z r).1 =
      { physicalResourceId := "ses-verification-" ++ d, data := none } := by
  unfold delete_verification
  dsimp only
  split
  · rfl
  · split <;> rfl

/-- Claim C2: whenever `create_or_update_verification` succeeds, the
physical resource id equals `ses-verification-<d>`; it depends on the
domain alone, so two successful runs with the same domain (a Create then
an Update, under any environments, zones and regions) produce the same
identifier. -/
theorem physical_id_pure (env1 env2 : Env) (d z1 r1 z2 r2 : String)
    (res1 res2 : Result)
    (h1 : (create_or_update_verification env1 d z1 r1).1 = Except.ok res1)
    (h2 : (create_or_update_verification env2 d z2 r2).1 = Except.ok res2) :
    res1.physicalResourceId = "ses-verification-" ++ d ∧
    res2.physicalResourceId = res1.physicalResourceId := by
  have e1 := create_or_update_ok_id env1 d z1 r1 res1 h1
  have e2 := create_or_update_ok_id env2 d z2 r2 res2 h2
  exact ⟨e1, e2.trans e1.symm⟩

/-- Witness for C2: a Create against zone `Z1` in `us-east-1` and an
Update against zone `Z1` in `eu-west-1`, both under `okEnv`, yield the
canonical identifier for `example.com`. -/
theorem physical_id_pure_witness :
    okCreateResult.physicalResourceId = "ses-verification-" ++ "example.com" ∧
    okCreateResult.physicalResourceId = okCreateResult.physicalResourceId :=
  physical_id_pure okEnv okEnv "example.com" "Z1" "us-east-1" "Z1" "eu-west-1"
    okCreateResult okCreateResult rfl rfl

/-- Claim C9: Create and Update events that agree on everything else are
routed to the same `create_or_update_verification` operation, hence give
identical results and identical call traces under any environment. -/
theorem create_update_same_route (env : Env) (d z r : String) :
    handler env (mkEvent "Create" d z r) = handler env (mkEvent "Update" d z r) ∧
    handler env (mkEvent "Create" d z r) = create_or_update_verification env d z r := by
  constructor <;> simp [handler, mkEvent]

/-- Claim C10: `delete_verification` never reads its region argument: two
runs differing only in the region issue the same DNS calls and return the
same result. -/
theorem delete_region_independent (env : Env) (d z r1 r2 : String) :
    delete_verification env d z r1 = delete_verification env d z r2 := rfl

/-- Claim C3: when the verification service issues token `t`, the DNS
change CreateOrUpdate submits is one UPSERT of a record named
`_amazonses.<d>`, type TXT, TTL 300, whose single value is `t` enclosed
in one pair of literal double quotes; on success the returned `Data`
carries that token, that record name, and the change id returned by the
DNS service. -/
theorem create_or_update_upsert_shape (env : Env) (d z r t cid : String)
    (hv : env.verifyDomainIdentity r d = Except.ok t)
    (hc : env.changeRRS z (upsertBatch d t) = Except.ok cid) :
    (create_or_update_verification env d z r).2 =
      [Call.verifyDomain r d, Call.changeRecords z (upsertBatch d t)] ∧
    upsertBatch d t =
      { changes := [{ action := "UPSERT",
                      resourceRecordSet :=
                        { name := "_amazonses." ++ d,
                          rtype := "TXT",
                          ttl := 300,
                          resourceRecords := [{ value := "\"" ++ t ++ "\"" }] } }] } ∧
    (create_or_update_verification env d z r).1 =
      Except.ok
        { physicalResourceId := "ses-verification-" ++ d,
          data := some
            { verificationToken := t,
              recordName := "_amazonses." ++ d,
              changeId := cid } } := by
  refine ⟨?_, rfl, ?_⟩ <;> simp only [create_or_update_verification, hv, hc]

/-- Witness for C3: the concrete UPSERT and response under `okEnv` for
domain `example.com`, zone `Z1`. -/
theorem create_or_update_upsert_shape_witness :
    (create_or_update_verification okEnv "example.com" "Z1" "us-east-1").2 =
      [Call.verifyDomain "us-east-1" "example.com",
       Call.changeRecords "Z1" (upsertBatch "example.com" "tok123")] ∧
    upsertBatch "example.com" "tok123" =
      { changes := [{ action := "UPSERT",
                      resourceRecordSet :=
                        { name := "_amazonses." ++ "example.com",
                          rtype := "TXT",
                          ttl := 300,
                          resourceRecords := [{ value := "\"" ++ "tok123" ++ "\"" }] } }] } ∧
    (create_or_update_verification okEnv "example.com" "Z1" "us-east-1").1 =
      Except.ok
        { physicalResourceId := "ses-verification-" ++ "example.com",
          data := some
            { verificationToken := "tok123",
              recordName := "_amazonses." ++ "example.com",
              changeId := "C42" } } :=
  create_or_update_upsert_shape okEnv "example.com" "Z1" "us-east-1" "tok123" "C42" rfl rfl

/-- Claim C6: failures of either upstream call during CreateOrUpdate
propagate to the caller with no structured response, no retry and no
rollback: a verification failure yields the error after exactly one call,
and a DNS-change failure yields the error after exactly the two calls,
with no further change submitted. -/
theorem create_or_update_propagates_failure (env : Env) (d z r e : String) :
    (env.verifyDomainIdentity r d = Except.error e →
      create_or_update_verification env d z r =
        (Except.error e, [Call.verifyDomain r d])) ∧
    (∀ t, env.verifyDomainIdentity r d = Except.ok t →
      env.changeRRS z (upsertBatch d t) = Except.error e →
      create_or_update_verification env d z r =
        (Except.error e,
         [Call.verifyDomain r d, Call.changeRecords z (upsertBatch d t)])) := by
  constructor
  · intro hv
    simp only [create_or_update_verification, hv]
  · intro t hv hc
    simp only [create_or_update_verification, hv, hc]

/-- Witness for C6: under `failVerifyEnv` the verification error
propagates after one call; under `failChangeEnv` the DNS-change error
propagates after both calls. -/
theorem create_or_update_propagates_failure_witness :
    create_or_update_verification failVerifyEnv "example.com" "Z1" "us-east-1" =
      (Except.error "verify boom", [Call.verifyDomain "us-east-1" "example.com"]) ∧
    create_or_update_verification failChangeEnv "example.com" "Z1" "us-east-1" =
      (Except.error "change boom",
       [Call.verifyDomain "us-east-1" "example.com",
        Call.changeRecords "Z1" (upsertBatch "example.com" "tok123")]) :=
  ⟨(create_or_update_propagates_failure failVerifyEnv "example.com" "Z1" "us-east-1"
      "verify boom").1 rfl,
   (create_or_update_propagates_failure failChangeEnv "example.com" "Z1" "us-east-1"
      "change boom").2 "tok123" rfl rfl⟩

/-- Claim C4: every DNS change submitted by Delete deletes a record set
taken from the listing whose name, with trailing root dots stripped,
equals `_amazonses.<d>` and whose type is TXT; record sets with any other
name or type are never selected for deletion. -/
theorem delete_match_condition (env : Env) (d z r z2 : String) (b : ChangeBatch)
    (h : Call.changeRecords z2 b ∈ (delete_verification env d z r).2) :
    ∃ record_sets record_set,
      env.listRRS z ("_amazonses." ++ d) "TXT" = Except.ok record_sets ∧
      record_set ∈ record_sets ∧
      b = deleteBatch record_set ∧
      rstripDots record_set.name = "_amazonses." ++ d ∧
      record_set.rtype = "TXT" := by
  rcases hE : env.listRRS z ("_amazonses." ++ d) "TXT" with e | record_sets
  · rw [delete_verification_error env d z r e hE] at h
    simp at h
  · rcases hF : findVerificationRecord ("_amazonses." ++ d) record_sets with _ | rs
    · rw [delete_verification_ok_none env d z r record_sets hE hF] at h
      simp at h
    · rw [delete_verification_ok_some env d z r record_sets rs hE hF] at h
      rcases List.mem_cons.mp h with h | h
      · exact Call.noConfusion h
      · rcases List.mem_cons.mp h with h | h
        · injection h with hz hb
          obtain ⟨hm, h1, h2⟩ := findVerificationRecord_some _ _ _ hF
          exact ⟨record_sets, rs, rfl, hm, hb, h1, h2⟩
        · exact absurd h (List.not_mem_nil _)

/-- Witness for C4: under `okEnv`, whose listing holds two decoys before
the matching record set, the submitted DELETE targets the matching one. -/
theorem delete_match_condition_witness :
    ∃ record_sets record_set,
      okEnv.listRRS "Z1" ("_amazonses." ++ "example.com") "TXT" = Except.ok record_sets ∧
      record_set ∈ record_sets ∧
      deleteBatch matchingRecordSet = deleteBatch record_set ∧
      rstripDots record_set.name = "_amazonses." ++ "example.com" ∧
      record_set.rtype = "TXT" :=
  delete_match_condition okEnv "example.com" "Z1" "us-east-1" "Z1"
    (deleteBatch matchingRecordSet) (by decide)

/-- Claim C5: Delete submits at most one DELETE change.  When the listing
succeeds and the scan finds a first matching record set, the trace is the
single list call followed by one DELETE of that record set exactly as it
was returned; when nothing matches, the trace is the single list call and
the canonical physical id is still returned. -/
theorem delete_change_policy (env : Env) (d z r : String) :
    (delete_verification env d z r).2.countP isChangeCall ≤ 1 ∧
    (∀ record_sets rs,
      env.listRRS z ("_amazonses." ++ d) "TXT" = Except.ok record_sets →
      findVerificationRecord ("_amazonses." ++ d) record_sets = some rs →
      (delete_verification env d z r).2 =
        [Call.listRecords z ("_amazonses." ++ d) "TXT",
         Call.changeRecords z (deleteBatch rs)]) ∧
    (∀ record_sets,
      env.listRRS z ("_amazonses." ++ d) "TXT" = Except.ok record_sets →
      findVerificationRecord ("_amazonses." ++ d) record_sets = none →
      (delete_verification env d z r).2 =
        [Call.listRecords z ("_amazonses." ++ d) "TXT"] ∧
      (delete_verification env d z r).1 =
        { physicalResourceId := "ses-verification-" ++ d, data := none }) := by
  refine ⟨?_, ?_, ?_⟩
  · rcases hE : env.listRRS z ("_amazonses." ++ d) "TXT" with e | record_sets
    · rw [delete_verification_error env d z r e hE]
      simp [List.countP, List.countP.go, isChangeCall]
    · rcases hF : findVerificationRecord ("_amazonses." ++ d) record_sets with _ | rs
      · rw [delete_verification_ok_none env d z r record_sets hE hF]
        simp [List.countP, List.countP.go, isChangeCall]
      · rw [delete_verification_ok_some env d z r record_sets rs hE hF]
        simp [List.countP, List.countP.go, isChangeCall]
  · intro record_sets rs hE hF
    rw [delete_verification_ok_some env d z r record_sets rs hE hF]
  · intro record_sets hE hF
    rw [delete_verification_ok_none env d z r record_sets hE hF]
    exact ⟨rfl, rfl⟩

/-- Witness for C5: under `okEnv` the trace is list-then-one-DELETE of
the matching record set; under `noMatchEnv` it is the single list call
with the canonical physical id. -/
theorem delete_change_policy_witness :
    (delete_verification okEnv "example.com" "Z1" "us-east-1").2 =
      [Call.listRecords "Z1" ("_amazonses." ++ "example.com") "TXT",
       Call.changeRecords "Z1" (deleteBatch matchingRecordSet)] ∧
    (delete_verification noMatchEnv "example.com" "Z1" "us-east-1").2 =
      [Call.listRecords "Z1" ("_amazonses." ++ "example.com") "TXT"] ∧
    (delete_verification noMatchEnv "example.com" "Z1" "us-east-1").1 =
      { physicalResourceId := "ses-verification-" ++ "example.com", data := none } :=
  ⟨(delete_change_policy okEnv "example.com" "Z1" "us-east-1").2.1
      [otherNameRecordSet, otherTypeRecordSet, matchingRecordSet] matchingRecordSet rfl rfl,
   ((delete_change_policy noMatchEnv "example.com" "Z1" "us-east-1").2.2
      [otherNameRecordSet, otherTypeRecordSet] rfl rfl).1,
   ((delete_change_policy noMatchEnv "example.com" "Z1" "us-east-1").2.2
      [otherNameRecordSet, otherTypeRecordSet] rfl rfl).2⟩

/-- Claim C7: an event whose request type is outside Create/Update/Delete
(all required fields present) makes the handler raise an unknown-type
error with an empty call trace: no verification call and no DNS call. -/
theorem handler_unknown_request_type (env : Env) (rt d z r : String)
    (h1 : rt ≠ "Create") (h2 : rt ≠ "Update") (h3 : rt ≠ "Delete") :
    handler env (mkEvent rt d z r) =
      (Except.error ("Unknown request type: " ++ rt), []) := by
  simp [handler, mkEvent, h1, h2, h3]

/-- Witness for C7 at request type `Banana`. -/
theorem handler_unknown_request_type_witness :
    handler okEnv (mkEvent "Banana" "example.com" "Z1" "us-east-1") =
      (Except.error ("Unknown request type: " ++ "Banana"), []) :=
  handler_unknown_request_type okEnv "Banana" "example.com" "Z1" "us-east-1"
    (by decide) (by decide) (by decide)

/-- Claim C8: whatever the request type (Delete included), an event
missing any required field — request type, resource properties, domain
name, zone id or region — makes the handler raise before any service
call: the result is an error and the call trace is empty. -/
theorem handler_missing_field (env : Env) (event : Event)
    (h : event.requestType = none ∨ event.resourceProperties = none ∨
         ∃ p, event.resourceProperties = some p ∧
           (p.domainName = none ∨ p.hostedZoneId = none ∨ p.region = none)) :
    (∃ e, (handler env event).1 = Except.error e) ∧ (handler env event).2 = [] := by
  rcases event with ⟨rt, props⟩
  dsimp only at h
  rcases h with h | h | ⟨p, hp, h⟩
  · subst h
    exact ⟨⟨"KeyError: RequestType", rfl⟩, rfl⟩
  · subst h
    cases rt with
    | none => exact ⟨⟨"KeyError: RequestType", rfl⟩, rfl⟩
    | some rt => exact ⟨⟨"KeyError: ResourceProperties", rfl⟩, rfl⟩
  · rcases p with ⟨dn, zid, reg⟩
    subst hp
    dsimp only at h
    cases rt with
    | none => exact ⟨⟨"KeyError: RequestType", rfl⟩, rfl⟩
    | some rt =>
      rcases h with h | h | h
      · subst h
        exact ⟨⟨"KeyError: DomainName", rfl⟩, rfl⟩
      · subst h
        cases dn with
        | none => exact ⟨⟨"KeyError: DomainName", rfl⟩, rfl⟩
        | some dn => exact ⟨⟨"KeyError: HostedZoneId", rfl⟩, rfl⟩
      · subst h
        cases dn with
        | none => exact ⟨⟨"KeyError: DomainName", rfl⟩, rfl⟩
        | some dn =>
          cases zid with
          | none => exact ⟨⟨"KeyError: HostedZoneId", rfl⟩, rfl⟩
          | some zid => exact ⟨⟨"KeyError: Region", rfl⟩, rfl⟩

/-- Witness for C8: a Delete event missing `DomainName` raises with no
service call. -/
theorem handler_missing_field_witness :
    (∃ e, (handler okEnv
        { requestType := some "Delete",
          resourceProperties := some
            { domainName := none,
              hostedZoneId := some "Z1",
              region := some "us-east-1" } }).1 = Except.error e) ∧
    (handler okEnv
        { requestType := some "Delete",
          resourceProperties := some
            { domainName := none,
              hostedZoneId := some "Z1",
              region := some "us-east-1" } }).2 = [] :=
  handler_missing_field okEnv _ (Or.inr (Or.inr ⟨_, rfl, Or.inl rfl⟩))

end SesVerification
